import Mathlib

/-!
# Statistics server command (`bot/command/impl/statistics/statsserver.go`)

A shallow embedding of `StatsServerCommand.Execute` and of the helpers it
calls, followed by theorems about it.

Modelling decisions.

* The analytics client (`dbclient.Analytics`) is an input: a record with one
  function per query, each returning the Go pair `(value, err)`.
* `float64` is carried as its 64-bit pattern; the code never computes on it,
  it only hands it to `fmt.Sprintf("%.1f ...")`.
* `uint64` values are natural numbers; no arithmetic is done on them.
* `time.Duration` is an integer count of nanoseconds; `*time.Duration` is an
  `Option`.
* The text produced by `fmt.Sprintf("%.1f", x)`, by
  `utils.FormatNullableTime` and by the table writer's `Render` is not
  defined in this file of the repository; the three functions are fields of
  `Libs`, a parameter of the embedding.
* The seven goroutines started by `group.Go` each perform one provider call
  and then write their own variable.  A run is described by the order in
  which the goroutines complete (`order`), a permutation of `launched`.
* Sentry spans have no effect on the result and are left out.
-/

namespace Statistics

/-! ## Contexts -/

/-- Nanoseconds, as `time.Duration`. -/
abbrev Duration := Int

/-- The constant `time.Second`. -/
def Second : Duration := 1000000000

/-- The constant `time.Minute`. -/
def Minute : Duration := 60 * Second

/-- The constant `time.Hour`. -/
def Hour : Duration := 60 * Minute

/-- A `context.Context`, described by how it was derived. -/
inductive Ctx where
  | background : Ctx
  | withTimeout (parent : Ctx) (timeout : Duration) : Ctx
  | withCancel (parent : Ctx) : Ctx
deriving DecidableEq, Repr

/-- Whether the deadline of a context had already passed when it was created. -/
def Ctx.expired : Ctx → Bool
  | .background => false
  | .withTimeout p d => decide (d ≤ 0) || p.expired
  | .withCancel p => p.expired

/-- Whether a context is done, given the contexts whose cancel function has
been called: a context is done when it, or one of the contexts it derives
from, is cancelled or expired.  Cancelling a derived context leaves its
parent untouched. -/
def Ctx.isDone (cancelled : List Ctx) : Ctx → Bool
  | .background => decide (Ctx.background ∈ cancelled)
  | .withTimeout p d =>
      decide (Ctx.withTimeout p d ∈ cancelled) || decide (d ≤ 0) || p.isDone cancelled
  | .withCancel p => decide (Ctx.withCancel p ∈ cancelled) || p.isDone cancelled

/-- A Go `error` value. -/
inductive GoError where
  | DeadlineExceeded : GoError
  | Canceled : GoError
  | other (msg : String) : GoError
deriving DecidableEq, Repr

/-! ## The analytics client -/

/-- A `float64`, by its bit pattern. -/
structure Float64 where
  bits : Nat
deriving DecidableEq, Repr

/-- The calendar date a `time.Time` shows in its own location. -/
structure CivilDate where
  year : Int
  month : Nat
  day : Nat
deriving DecidableEq, Repr

/-- One point of the daily series (`analytics.CountOnDate`). -/
structure CountOnDate where
  Date : CivilDate
  Count : Nat
deriving DecidableEq, Repr

/-- The type `analytics.TripleWindow`: three nullable durations. -/
structure TripleWindow where
  AllTime : Option Duration
  Monthly : Option Duration
  Weekly : Option Duration
deriving DecidableEq, Repr

/-- The queries of `dbclient.Analytics` used by the command.  Each returns the
Go pair of a value and an error (`none` is `nil`). -/
structure AnalyticsClient where
  GetTotalTicketCount : Ctx → Nat → Nat × Option GoError
  GetTotalOpenTicketCount : Ctx → Nat → Nat × Option GoError
  GetAverageFeedbackRatingGuild : Ctx → Nat → Float64 × Option GoError
  GetFeedbackCountGuild : Ctx → Nat → Nat × Option GoError
  GetFirstResponseTimeStats : Ctx → Nat → TripleWindow × Option GoError
  GetTicketDurationStats : Ctx → Nat → TripleWindow × Option GoError
  GetLastNTicketsPerDayGuild : Ctx → Nat → Nat → List CountOnDate × Option GoError

/-- A provider call, as recorded in the log of a run. -/
inductive Call where
  | GetTotalTicketCount (ctx : Ctx) (guildId : Nat) : Call
  | GetTotalOpenTicketCount (ctx : Ctx) (guildId : Nat) : Call
  | GetAverageFeedbackRatingGuild (ctx : Ctx) (guildId : Nat) : Call
  | GetFeedbackCountGuild (ctx : Ctx) (guildId : Nat) : Call
  | GetFirstResponseTimeStats (ctx : Ctx) (guildId : Nat) : Call
  | GetTicketDurationStats (ctx : Ctx) (guildId : Nat) : Call
  | GetLastNTicketsPerDayGuild (ctx : Ctx) (guildId : Nat) (n : Nat) : Call
deriving DecidableEq, Repr

/-- The context a recorded call was given. -/
def Call.ctx : Call → Ctx
  | .GetTotalTicketCount ctx _ => ctx
  | .GetTotalOpenTicketCount ctx _ => ctx
  | .GetAverageFeedbackRatingGuild ctx _ => ctx
  | .GetFeedbackCountGuild ctx _ => ctx
  | .GetFirstResponseTimeStats ctx _ => ctx
  | .GetTicketDurationStats ctx _ => ctx
  | .GetLastNTicketsPerDayGuild ctx _ _ => ctx

/-! ## Text helpers -/

/-- The digit character of a number below ten. -/
def utod (u : Nat) : Char := Char.ofNat (48 + u)

/-- Go's `time.appendInt`: the decimal text of `x`, zero-padded to `width`,
with the two fast paths for two-digit and four-digit fields. -/
def appendInt (x : Int) (width : Nat) : List Char :=
  let u := x.natAbs
  let sign : List Char := if x < 0 then ['-'] else []
  if width = 2 ∧ u < 100 then
    sign ++ [utod (u / 10), utod (u % 10)]
  else if width = 4 ∧ u < 10000 then
    sign ++ [utod (u / 1000), utod (u / 100 % 10), utod (u / 10 % 10), utod (u % 10)]
  else
    let digits := Nat.toDigits 10 u
    sign ++ List.replicate (width - digits.length) '0' ++ digits

/-- The call `t.Format("2006-01-02")`: long year, zero month, zero day. -/
def formatDate (d : CivilDate) : String :=
  String.mk (appendInt d.year 4 ++ ['-'] ++ appendInt (Int.ofNat d.month) 2 ++ ['-']
    ++ appendInt (Int.ofNat d.day) 2)

/-- The call `strconv.FormatUint(x, base)`. -/
def FormatUint (x : Nat) (base : Nat) : String := String.mk (Nat.toDigits base x)

/-! ## The table writer (`go-pretty/v6/table`) -/

/-- A table cell: the code stores strings and unsigned counts. -/
inductive Cell where
  | str (s : String) : Cell
  | uint (n : Nat) : Cell
deriving DecidableEq, Repr

/-- A `table.Row`. -/
abbrev Row := List Cell

/-- The type `text.Format`. -/
inductive TextFormat where
  | FormatDefault : TextFormat
  | FormatUpper : TextFormat
deriving DecidableEq, Repr

/-- A `table.Style`, as far as the code touches it. -/
structure Style where
  Name : String
  FormatHeader : TextFormat
deriving DecidableEq, Repr

/-- The value `table.StyleDefault`. -/
def StyleDefault : Style := { Name := "StyleDefault", FormatHeader := TextFormat.FormatUpper }

/-- The value `table.StyleLight`. -/
def StyleLight : Style := { Name := "StyleLight", FormatHeader := TextFormat.FormatUpper }

/-- The state of a `table.Writer`. -/
structure TableWriter where
  style : Style
  header : List Row
  rows : List Row
deriving DecidableEq, Repr

/-- The call `table.NewWriter()`. -/
def NewWriter : TableWriter := { style := StyleDefault, header := [], rows := [] }

/-- The call `tw.SetStyle(style)`. -/
def TableWriter.SetStyle (tw : TableWriter) (style : Style) : TableWriter :=
  { tw with style := style }

/-- The assignment `tw.Style().Format.Header = f`. -/
def TableWriter.SetFormatHeader (tw : TableWriter) (f : TextFormat) : TableWriter :=
  { tw with style := { tw.style with FormatHeader := f } }

/-- The call `tw.AppendHeader(row)`. -/
def TableWriter.AppendHeader (tw : TableWriter) (row : Row) : TableWriter :=
  { tw with header := tw.header ++ [row] }

/-- The call `tw.AppendRow(row)`. -/
def TableWriter.AppendRow (tw : TableWriter) (row : Row) : TableWriter :=
  { tw with rows := tw.rows ++ [row] }

/-- Text producers that live outside this file of the repository. -/
structure Libs where
  /-- The text `fmt.Sprintf("%.1f", x)`. -/
  Sprintf1f : Float64 → String
  /-- The function `utils.FormatNullableTime`. -/
  FormatNullableTime : Option Duration → String
  /-- The method `Render` of the table writer. -/
  Render : TableWriter → String

/-- The wrapper `formatNullableTime` of the source file. -/
def formatNullableTime (lib : Libs) (duration : Option Duration) : String :=
  lib.FormatNullableTime duration

/-- Lines 122 to 129: the writer as it stands when `Render` is called. -/
def volumeWriter (counts : List CountOnDate) : TableWriter :=
  let tw := NewWriter
  let tw := tw.SetStyle StyleLight
  let tw := tw.SetFormatHeader TextFormat.FormatDefault
  let tw := tw.AppendHeader [Cell.str "Date", Cell.str "Ticket Volume"]
  counts.foldl (fun tw count => tw.AppendRow [Cell.str (formatDate count.Date), Cell.uint count.Count])
    tw

/-! ## Embeds and the command context -/

/-- One entry of an embed. -/
inductive EmbedField where
  | field (name : String) (value : String) (inline : Bool) : EmbedField
  | blank (inline : Bool) : EmbedField
deriving DecidableEq, Repr

/-- The type `embed.Embed`, as far as the code fills it. -/
structure Embed where
  Title : String
  Color : Nat
  Fields : List EmbedField
deriving DecidableEq, Repr

/-- The call `embed.NewEmbed()`. -/
def NewEmbed : Embed := { Title := "", Color := 0, Fields := [] }

/-- The call `e.SetTitle(title)`. -/
def Embed.SetTitle (e : Embed) (title : String) : Embed := { e with Title := title }

/-- The call `e.SetColor(colour)`. -/
def Embed.SetColor (e : Embed) (colour : Nat) : Embed := { e with Color := colour }

/-- The call `e.AddField(name, value, inline)`. -/
def Embed.AddField (e : Embed) (name value : String) (inline : Bool) : Embed :=
  { e with Fields := e.Fields ++ [EmbedField.field name value inline] }

/-- The call `e.AddBlankField(inline)`. -/
def Embed.AddBlankField (e : Embed) (inline : Bool) : Embed :=
  { e with Fields := e.Fields ++ [EmbedField.blank inline] }

/-- The values of `customisation.Colour` the file names. -/
inductive Colour where
  | Green : Colour
  | Red : Colour
deriving DecidableEq, Repr

/-- A message response. -/
inductive MessageResponse where
  | ephemeralEmbed (e : Embed) : MessageResponse
deriving DecidableEq, Repr

/-- The call `command.NewEphemeralEmbedMessageResponse(e)`. -/
def NewEphemeralEmbedMessageResponse (e : Embed) : MessageResponse :=
  MessageResponse.ephemeralEmbed e

/-- What the command reads from its `registry.CommandContext`. -/
structure CommandContext where
  GuildId : Nat
  GetColour : Colour → Nat

/-- What the command does to its `registry.CommandContext`. -/
inductive Effect where
  | HandleError (err : GoError) : Effect
  | ReplyWith (response : MessageResponse) : Effect
deriving DecidableEq, Repr

/-! ## The task group (`golang.org/x/sync/errgroup`) -/

/-- An `errgroup.Group` made by `WithContext`: the derived context it
cancels, the first error recorded, and whether it has cancelled yet. -/
structure Group where
  scope : Ctx
  err : Option GoError
  cancelled : Bool
deriving DecidableEq, Repr

/-- The call `errgroup.WithContext(ctx)`: the group and its derived context. -/
def WithContext (ctx : Ctx) : Group × Ctx :=
  ({ scope := Ctx.withCancel ctx, err := none, cancelled := false }, Ctx.withCancel ctx)

/-- The end of a goroutine started by `g.Go(f)`, `ferr` being what `f`
returned: the first non-nil error is kept and the derived context cancelled. -/
def Group.finish (g : Group) (ferr : Option GoError) : Group :=
  match ferr with
  | none => g
  | some e =>
    match g.err with
    | some _ => g
    | none => { g with err := some e, cancelled := true }

/-- The call `g.Wait()`, once every goroutine has returned. -/
def Group.Wait (g : Group) : Group × Option GoError :=
  ({ g with cancelled := true }, g.err)

/-- The contexts a group has cancelled. -/
def Group.cancelledScopes (g : Group) : List Ctx :=
  if g.cancelled then [g.scope] else []

/-! ## `StatsServerCommand.Execute` -/

/-- The seven goroutines, named after the variable each one fills. -/
inductive Branch where
  | totalTickets : Branch
  | openTickets : Branch
  | feedbackRating : Branch
  | feedbackCount : Branch
  | firstResponseTime : Branch
  | ticketDuration : Branch
  | ticketVolumeTable : Branch
deriving DecidableEq, Repr

/-- The `group.Go` calls of `Execute`, in program order. -/
def launched : List Branch :=
  [Branch.totalTickets, Branch.openTickets, Branch.feedbackRating, Branch.feedbackCount,
   Branch.firstResponseTime, Branch.ticketDuration, Branch.ticketVolumeTable]

/-- The local variables of `Execute` that the goroutines assign. -/
structure Vars where
  totalTickets : Nat
  openTickets : Nat
  feedbackRating : Float64
  feedbackCount : Nat
  firstResponseTime : TripleWindow
  ticketDuration : TripleWindow
  ticketVolumeTable : String
deriving DecidableEq, Repr

/-- The zero values the variables are declared with. -/
def Vars.zero : Vars :=
  { totalTickets := 0, openTickets := 0, feedbackRating := { bits := 0 }, feedbackCount := 0,
    firstResponseTime := { AllTime := none, Monthly := none, Weekly := none },
    ticketDuration := { AllTime := none, Monthly := none, Weekly := none },
    ticketVolumeTable := "" }

/-- What running one goroutine body gives: the variables afterwards, the
provider calls it made, and the error it returned. -/
structure BranchRun where
  vars : Vars
  calls : List Call
  err : Option GoError

/-- The bodies of the seven closures passed to `group.Go` (lines 55 to 133). -/
def branchBody (lib : Libs) (an : AnalyticsClient) (ctx : Ctx) (c : CommandContext) :
    Branch → Vars → BranchRun
  | .totalTickets, v =>
    let r := an.GetTotalTicketCount ctx c.GuildId
    { vars := { v with totalTickets := r.1 },
      calls := [Call.GetTotalTicketCount ctx c.GuildId], err := r.2 }
  | .openTickets, v =>
    let r := an.GetTotalOpenTicketCount ctx c.GuildId
    { vars := { v with openTickets := r.1 },
      calls := [Call.GetTotalOpenTicketCount ctx c.GuildId], err := r.2 }
  | .feedbackRating, v =>
    let r := an.GetAverageFeedbackRatingGuild ctx c.GuildId
    { vars := { v with feedbackRating := r.1 },
      calls := [Call.GetAverageFeedbackRatingGuild ctx c.GuildId], err := r.2 }
  | .feedbackCount, v =>
    let r := an.GetFeedbackCountGuild ctx c.GuildId
    { vars := { v with feedbackCount := r.1 },
      calls := [Call.GetFeedbackCountGuild ctx c.GuildId], err := r.2 }
  | .firstResponseTime, v =>
    let r := an.GetFirstResponseTimeStats ctx c.GuildId
    { vars := { v with firstResponseTime := r.1 },
      calls := [Call.GetFirstResponseTimeStats ctx c.GuildId], err := r.2 }
  | .ticketDuration, v =>
    let r := an.GetTicketDurationStats ctx c.GuildId
    { vars := { v with ticketDuration := r.1 },
      calls := [Call.GetTicketDurationStats ctx c.GuildId], err := r.2 }
  | .ticketVolumeTable, v =>
    let r := an.GetLastNTicketsPerDayGuild ctx c.GuildId 7
    match r.2 with
    | some err =>
      { vars := v, calls := [Call.GetLastNTicketsPerDayGuild ctx c.GuildId 7], err := some err }
    | none =>
      { vars := { v with ticketVolumeTable := lib.Render (volumeWriter r.1) },
        calls := [Call.GetLastNTicketsPerDayGuild ctx c.GuildId 7], err := none }

/-- The state of a run: the variables, the log of provider calls, the group. -/
structure Exec where
  vars : Vars
  calls : List Call
  group : Group

/-- One goroutine runs to completion and reports to the group. -/
def goBranch (lib : Libs) (an : AnalyticsClient) (ctx : Ctx) (c : CommandContext)
    (s : Exec) (b : Branch) : Exec :=
  let r := branchBody lib an ctx c b s.vars
  { vars := r.vars, calls := s.calls ++ r.calls, group := s.group.finish r.err }

/-- The goroutines complete in the given order, starting from the zero
variables and the group of `errgroup.WithContext(ctx)`.  The derived context
that call returns is dropped, as in the source (`group, _ := ...`). -/
def runBranches (lib : Libs) (an : AnalyticsClient) (ctx : Ctx) (c : CommandContext)
    (order : List Branch) : Exec :=
  order.foldl (goBranch lib an ctx c)
    { vars := Vars.zero, calls := [], group := (WithContext ctx).1 }

/-- Lines 142 to 157: the embed built from the variables. -/
def msgEmbed (lib : Libs) (c : CommandContext) (v : Vars) : Embed :=
  (((((((((((((((NewEmbed.SetTitle "Statistics").SetColor (c.GetColour Colour.Green)).AddField
    "Total Tickets" (FormatUint v.totalTickets 10) true).AddField
    "Open Tickets" (FormatUint v.openTickets 10) true).AddBlankField true).AddField
    "Feedback Rating" (lib.Sprintf1f v.feedbackRating ++ " / 5 ⭐") true).AddField
    "Feedback Count" (FormatUint v.feedbackCount 10) true).AddBlankField true).AddField
    "Average First Response Time (Total)" (formatNullableTime lib v.firstResponseTime.AllTime)
      true).AddField
    "Average First Response Time (Monthly)" (formatNullableTime lib v.firstResponseTime.Monthly)
      true).AddField
    "Average First Response Time (Weekly)" (formatNullableTime lib v.firstResponseTime.Weekly)
      true).AddField
    "Average Ticket Duration (Total)" (formatNullableTime lib v.ticketDuration.AllTime)
      true).AddField
    "Average Ticket Duration (Monthly)" (formatNullableTime lib v.ticketDuration.Monthly)
      true).AddField
    "Average Ticket Duration (Weekly)" (formatNullableTime lib v.ticketDuration.Weekly)
      true).AddField
    "Ticket Volume" ("```\n" ++ v.ticketVolumeTable ++ "\n```") false)

/-- What a run of the command leaves behind. -/
structure Outcome where
  vars : Vars
  calls : List Call
  group : Group
  effects : List Effect

/-- Lines 47 to 160, for a given context `ctx`. -/
def executeIn (lib : Libs) (an : AnalyticsClient) (c : CommandContext) (order : List Branch)
    (ctx : Ctx) : Outcome :=
  let s := runBranches lib an ctx c order
  let w := s.group.Wait
  match w.2 with
  | some err =>
    { vars := s.vars, calls := s.calls, group := w.1, effects := [Effect.HandleError err] }
  | none =>
    { vars := s.vars, calls := s.calls, group := w.1,
      effects := [Effect.ReplyWith (NewEphemeralEmbedMessageResponse (msgEmbed lib c s.vars))] }

/-- The context of line 44: thirty seconds from the background context. -/
def execCtx : Ctx := Ctx.withTimeout Ctx.background (Second * 30)

/-- The method `StatsServerCommand.Execute`. -/
def Execute (lib : Libs) (an : AnalyticsClient) (c : CommandContext) (order : List Branch) :
    Outcome :=
  executeIn lib an c order execCtx

/-! ## Vocabulary of the statements -/

/-- The error returned by the provider call of a branch. -/
def providerErr (an : AnalyticsClient) (ctx : Ctx) (guildId : Nat) : Branch → Option GoError
  | .totalTickets => (an.GetTotalTicketCount ctx guildId).2
  | .openTickets => (an.GetTotalOpenTicketCount ctx guildId).2
  | .feedbackRating => (an.GetAverageFeedbackRatingGuild ctx guildId).2
  | .feedbackCount => (an.GetFeedbackCountGuild ctx guildId).2
  | .firstResponseTime => (an.GetFirstResponseTimeStats ctx guildId).2
  | .ticketDuration => (an.GetTicketDurationStats ctx guildId).2
  | .ticketVolumeTable => (an.GetLastNTicketsPerDayGuild ctx guildId 7).2

/-- The provider call each branch is expected to make. -/
def providerCall (ctx : Ctx) (guildId : Nat) : Branch → Call
  | .totalTickets => Call.GetTotalTicketCount ctx guildId
  | .openTickets => Call.GetTotalOpenTicketCount ctx guildId
  | .feedbackRating => Call.GetAverageFeedbackRatingGuild ctx guildId
  | .feedbackCount => Call.GetFeedbackCountGuild ctx guildId
  | .firstResponseTime => Call.GetFirstResponseTimeStats ctx guildId
  | .ticketDuration => Call.GetTicketDurationStats ctx guildId
  | .ticketVolumeTable => Call.GetLastNTicketsPerDayGuild ctx guildId 7

/-- The content of a variable, whatever its type. -/
inductive Slot where
  | u64 (n : Nat) : Slot
  | f64 (x : Float64) : Slot
  | window (w : TripleWindow) : Slot
  | text (s : String) : Slot
deriving DecidableEq, Repr

/-- The variable that belongs to a branch. -/
def Vars.slot (v : Vars) : Branch → Slot
  | .totalTickets => Slot.u64 v.totalTickets
  | .openTickets => Slot.u64 v.openTickets
  | .feedbackRating => Slot.f64 v.feedbackRating
  | .feedbackCount => Slot.u64 v.feedbackCount
  | .firstResponseTime => Slot.window v.firstResponseTime
  | .ticketDuration => Slot.window v.ticketDuration
  | .ticketVolumeTable => Slot.text v.ticketVolumeTable

/-- A date whose year has four digits and whose month and day are in range. -/
def CivilDate.fourDigit (d : CivilDate) : Prop :=
  0 ≤ d.year ∧ d.year ≤ 9999 ∧ 1 ≤ d.month ∧ d.month ≤ 12 ∧ 1 ≤ d.day ∧ d.day ≤ 31

instance (d : CivilDate) : Decidable d.fourDigit := by
  unfold CivilDate.fourDigit
  infer_instance

/-- The row the loop of line 127 appends for a point. -/
def volumeRow (count : CountOnDate) : Row :=
  [Cell.str (formatDate count.Date), Cell.uint count.Count]

/-- The variables after one goroutine. -/
def stepVars (lib : Libs) (an : AnalyticsClient) (ctx : Ctx) (c : CommandContext)
    (v : Vars) (b : Branch) : Vars :=
  (branchBody lib an ctx c b v).vars

/-- The first error in completion order, if any branch fails. -/
def firstError (perr : Branch → Option GoError) (order : List Branch) : Option GoError :=
  (order.filterMap perr).head?

/-! ## Sample inputs

Concrete values on which the theorems below are run.  `demoLibs` is a
stand-in for the three text producers; it does not describe the real ones. -/

/-- The bit pattern of the `float64` nearest to 4.7. -/
def rating47 : Float64 := { bits := 0x4012CCCCCCCCCCCD }

/-- A stand-in for the text producers. -/
def demoLibs : Libs :=
  { Sprintf1f := fun x => if x.bits = rating47.bits then "4.7" else "0.0",
    FormatNullableTime := fun d =>
      match d with
      | none => "nil"
      | some n => String.mk (Nat.toDigits 10 n.natAbs) ++ "ns",
    Render := fun tw =>
      String.intercalate "\n" ((tw.header ++ tw.rows).map (fun r =>
        String.intercalate " " (r.map (fun cell =>
          match cell with
          | Cell.str s => s
          | Cell.uint n => FormatUint n 10)))) }

/-- The series of the concrete scenario. -/
def series3 : List CountOnDate :=
  [{ Date := { year := 2024, month := 1, day := 1 }, Count := 3 },
   { Date := { year := 2024, month := 1, day := 2 }, Count := 0 },
   { Date := { year := 2024, month := 1, day := 3 }, Count := 5 }]

/-- A client whose seven queries all succeed, with the values of the concrete
scenario. -/
def okAnalytics : AnalyticsClient :=
  { GetTotalTicketCount := fun _ _ => (42, none),
    GetTotalOpenTicketCount := fun _ _ => (5, none),
    GetAverageFeedbackRatingGuild := fun _ _ => (rating47, none),
    GetFeedbackCountGuild := fun _ _ => (12, none),
    GetFirstResponseTimeStats := fun _ _ =>
      ({ AllTime := some (2 * Hour), Monthly := none, Weekly := none }, none),
    GetTicketDurationStats := fun _ _ =>
      ({ AllTime := some (30 * Minute), Monthly := some (10 * Minute),
         Weekly := some (5 * Minute) }, none),
    GetLastNTicketsPerDayGuild := fun _ _ _ => (series3, none) }

/-- The client `okAnalytics` with an empty daily series. -/
def emptySeriesAnalytics : AnalyticsClient :=
  { okAnalytics with GetLastNTicketsPerDayGuild := fun _ _ _ => ([], none) }

/-- The client `okAnalytics` with a failing total-ticket query. -/
def totalFailsAnalytics : AnalyticsClient :=
  { okAnalytics with GetTotalTicketCount := fun _ _ => (0, some (GoError.other "db down")) }

/-- The client `okAnalytics` with a failing daily-volume query. -/
def volumeFailsAnalytics : AnalyticsClient :=
  { okAnalytics with
    GetLastNTicketsPerDayGuild := fun _ _ _ => ([], some (GoError.other "db down")) }

/-- Two clients give the same answers to the seven queries of a run: each of
the seven methods, applied to the context and the guild id of the run (and
to 7 days for the daily series), returns the same pair from both. -/
def sameAnswers (an other : AnalyticsClient) (ctx : Ctx) (guildId : Nat) : Prop :=
  other.GetTotalTicketCount ctx guildId = an.GetTotalTicketCount ctx guildId ∧
  other.GetTotalOpenTicketCount ctx guildId = an.GetTotalOpenTicketCount ctx guildId ∧
  other.GetAverageFeedbackRatingGuild ctx guildId =
    an.GetAverageFeedbackRatingGuild ctx guildId ∧
  other.GetFeedbackCountGuild ctx guildId = an.GetFeedbackCountGuild ctx guildId ∧
  other.GetFirstResponseTimeStats ctx guildId = an.GetFirstResponseTimeStats ctx guildId ∧
  other.GetTicketDurationStats ctx guildId = an.GetTicketDurationStats ctx guildId ∧
  other.GetLastNTicketsPerDayGuild ctx guildId 7 = an.GetLastNTicketsPerDayGuild ctx guildId 7

/-- A client that fails every query at every guild and every series length
except guild 1234, where it answers as `okAnalytics` does when asked for 7
days and fails the daily series for any other length. -/
def onlyGuild1234Analytics : AnalyticsClient :=
  { GetTotalTicketCount := fun _ g =>
      if g = 1234 then (42, none) else (0, some (GoError.other "unknown guild")),
    GetTotalOpenTicketCount := fun _ g =>
      if g = 1234 then (5, none) else (0, some (GoError.other "unknown guild")),
    GetAverageFeedbackRatingGuild := fun _ g =>
      if g = 1234 then (rating47, none)
      else ({ bits := 0 }, some (GoError.other "unknown guild")),
    GetFeedbackCountGuild := fun _ g =>
      if g = 1234 then (12, none) else (0, some (GoError.other "unknown guild")),
    GetFirstResponseTimeStats := fun _ g =>
      if g = 1234 then ({ AllTime := some (2 * Hour), Monthly := none, Weekly := none }, none)
      else ({ AllTime := none, Monthly := none, Weekly := none },
        some (GoError.other "unknown guild")),
    GetTicketDurationStats := fun _ g =>
      if g = 1234 then
        ({ AllTime := some (30 * Minute), Monthly := some (10 * Minute),
           Weekly := some (5 * Minute) }, none)
      else ({ AllTime := none, Monthly := none, Weekly := none },
        some (GoError.other "unknown guild")),
    GetLastNTicketsPerDayGuild := fun _ g n =>
      if g = 1234 ∧ n = 7 then (series3, none) else ([], some (GoError.other "bad request")) }

/-- A command context for guild 1234. -/
def demoContext : CommandContext := { GuildId := 1234, GetColour := fun _ => 0x2ECC71 }

/-- A completion order other than the program order. -/
def demoOrder : List Branch :=
  [Branch.ticketVolumeTable, Branch.feedbackCount, Branch.totalTickets, Branch.ticketDuration,
   Branch.openTickets, Branch.firstResponseTime, Branch.feedbackRating]

/-! ## Lemmas on a run -/

theorem branchBody_err (lib : Libs) (an : AnalyticsClient) (ctx : Ctx) (c : CommandContext)
    (b : Branch) (v : Vars) :
    (branchBody lib an ctx c b v).err = providerErr an ctx c.GuildId b := by
  cases b <;> simp only [branchBody, providerErr]
  split <;> simp_all

theorem branchBody_calls (lib : Libs) (an : AnalyticsClient) (ctx : Ctx) (c : CommandContext)
    (b : Branch) (v : Vars) :
    (branchBody lib an ctx c b v).calls = [providerCall ctx c.GuildId b] := by
  cases b <;> simp only [branchBody, providerCall]
  split <;> rfl

theorem foldl_goBranch (lib : Libs) (an : AnalyticsClient) (ctx : Ctx) (c : CommandContext)
    (order : List Branch) (s : Exec) :
    order.foldl (goBranch lib an ctx c) s =
      { vars := order.foldl (stepVars lib an ctx c) s.vars,
        calls := s.calls ++ order.map (providerCall ctx c.GuildId),
        group := order.foldl (fun g b => g.finish (providerErr an ctx c.GuildId b)) s.group } := by
  induction order generalizing s with
  | nil => simp
  | cons b rest ih =>
    simp only [List.foldl_cons, List.map_cons]
    rw [ih]
    simp [goBranch, stepVars, branchBody_err, branchBody_calls]

theorem stepVars_comm (lib : Libs) (an : AnalyticsClient) (ctx : Ctx) (c : CommandContext)
    (v : Vars) (a b : Branch) :
    stepVars lib an ctx c (stepVars lib an ctx c v a) b =
      stepVars lib an ctx c (stepVars lib an ctx c v b) a := by
  cases h : (an.GetLastNTicketsPerDayGuild ctx c.GuildId 7).2 <;>
    cases a <;> cases b <;> simp [stepVars, branchBody, h]

theorem foldl_stepVars_perm (lib : Libs) (an : AnalyticsClient) (ctx : Ctx) (c : CommandContext)
    (v : Vars) {order order2 : List Branch} (h : order.Perm order2) :
    order.foldl (stepVars lib an ctx c) v = order2.foldl (stepVars lib an ctx c) v :=
  h.foldl_eq' (fun a _ b _ z => stepVars_comm lib an ctx c z a b) v

theorem mem_launched (b : Branch) : b ∈ launched := by
  cases b <;> simp [launched]

theorem mem_of_perm_launched {order : List Branch} (h : order.Perm launched) (b : Branch) :
    b ∈ order :=
  h.mem_iff.mpr (mem_launched b)

theorem foldl_finish (perr : Branch → Option GoError) (order : List Branch) (g : Group) :
    order.foldl (fun g b => g.finish (perr b)) g =
      match g.err, firstError perr order with
      | none, some e => { g with err := some e, cancelled := true }
      | _, _ => g := by
  induction order generalizing g with
  | nil => cases hg : g.err <;> simp [firstError]
  | cons b rest ih =>
    simp only [List.foldl_cons]
    rw [ih]
    cases hb : perr b with
    | none =>
      have : firstError perr (b :: rest) = firstError perr rest := by
        simp [firstError, List.filterMap_cons, hb]
      simp [Group.finish, this]
    | some e =>
      have : firstError perr (b :: rest) = some e := by
        simp [firstError, List.filterMap_cons, hb]
      cases hg : g.err with
      | none => simp [Group.finish, this, hg]
      | some e0 => simp [Group.finish, hg]

theorem firstError_eq_none {perr : Branch → Option GoError} {order : List Branch}
    (h : ∀ b ∈ order, perr b = none) : firstError perr order = none := by
  induction order with
  | nil => rfl
  | cons b rest ih =>
    have hb : perr b = none := h b (List.mem_cons_self _ _)
    have hr : ∀ a ∈ rest, perr a = none := fun a ha => h a (List.mem_cons_of_mem _ ha)
    simpa [firstError, List.filterMap_cons, hb] using ih hr

theorem firstError_mem {perr : Branch → Option GoError} {order : List Branch} {e : GoError}
    (h : firstError perr order = some e) : ∃ b ∈ order, perr b = some e := by
  induction order with
  | nil => simp [firstError] at h
  | cons b rest ih =>
    cases hb : perr b with
    | none =>
      have hr : firstError perr rest = some e := by
        simpa [firstError, List.filterMap_cons, hb] using h
      obtain ⟨a, ha, hae⟩ := ih hr
      exact ⟨a, List.mem_cons_of_mem _ ha, hae⟩
    | some e0 =>
      have : e0 = e := by
        simpa [firstError, List.filterMap_cons, hb] using h
      exact ⟨b, List.mem_cons_self _ _, this ▸ hb⟩

theorem firstError_isSome {perr : Branch → Option GoError} {order : List Branch} {b : Branch}
    {e : GoError} (hb : b ∈ order) (he : perr b = some e) :
    ∃ e0, firstError perr order = some e0 := by
  cases h : firstError perr order with
  | some e0 => exact ⟨e0, rfl⟩
  | none =>
    exfalso
    induction order with
    | nil => simp at hb
    | cons a rest ih =>
      cases ha : perr a with
      | some e1 => simp [firstError, List.filterMap_cons, ha] at h
      | none =>
        have hr : firstError perr rest = none := by
          simpa [firstError, List.filterMap_cons, ha] using h
        rcases List.mem_cons.mp hb with rfl | hmem
        · rw [he] at ha
          cases ha
        · exact ih hmem hr

theorem firstError_unique {perr : Branch → Option GoError} {order : List Branch} {b : Branch}
    {e : GoError} (hb : b ∈ order) (he : perr b = some e)
    (hothers : ∀ a, a ≠ b → perr a = none) : firstError perr order = some e := by
  obtain ⟨e0, h0⟩ := firstError_isSome hb he
  obtain ⟨a, _, hae⟩ := firstError_mem h0
  by_cases hab : a = b
  · subst hab
    rw [he] at hae
    rw [h0, ← hae]
  · rw [hothers a hab] at hae
    cases hae

theorem runBranches_eq (lib : Libs) (an : AnalyticsClient) (ctx : Ctx) (c : CommandContext)
    (order : List Branch) :
    runBranches lib an ctx c order =
      { vars := order.foldl (stepVars lib an ctx c) Vars.zero,
        calls := order.map (providerCall ctx c.GuildId),
        group :=
          match firstError (providerErr an ctx c.GuildId) order with
          | some e => { scope := Ctx.withCancel ctx, err := some e, cancelled := true }
          | none => { scope := Ctx.withCancel ctx, err := none, cancelled := false } } := by
  unfold runBranches
  rw [foldl_goBranch, foldl_finish]
  cases firstError (providerErr an ctx c.GuildId) order <;> simp [WithContext]

theorem executeIn_effects (lib : Libs) (an : AnalyticsClient) (c : CommandContext)
    (order : List Branch) (ctx : Ctx) :
    (executeIn lib an c order ctx).effects =
      match firstError (providerErr an ctx c.GuildId) order with
      | some e => [Effect.HandleError e]
      | none =>
        [Effect.ReplyWith (NewEphemeralEmbedMessageResponse
          (msgEmbed lib c (order.foldl (stepVars lib an ctx c) Vars.zero)))] := by
  unfold executeIn
  rw [runBranches_eq]
  cases firstError (providerErr an ctx c.GuildId) order <;> simp [Group.Wait]

theorem executeIn_calls (lib : Libs) (an : AnalyticsClient) (c : CommandContext)
    (order : List Branch) (ctx : Ctx) :
    (executeIn lib an c order ctx).calls = order.map (providerCall ctx c.GuildId) := by
  unfold executeIn
  rw [runBranches_eq]
  cases firstError (providerErr an ctx c.GuildId) order <;> simp [Group.Wait]

theorem executeIn_vars (lib : Libs) (an : AnalyticsClient) (c : CommandContext)
    (order : List Branch) (ctx : Ctx) :
    (executeIn lib an c order ctx).vars = order.foldl (stepVars lib an ctx c) Vars.zero := by
  unfold executeIn
  rw [runBranches_eq]
  cases firstError (providerErr an ctx c.GuildId) order <;> simp [Group.Wait]

theorem volumeWriter_foldl (rows0 : List Row) (style : Style) (header : List Row)
    (counts : List CountOnDate) :
    counts.foldl
        (fun (tw : TableWriter) count =>
          tw.AppendRow [Cell.str (formatDate count.Date), Cell.uint count.Count])
        { style := style, header := header, rows := rows0 } =
      ({ style := style, header := header, rows := rows0 ++ counts.map volumeRow } :
        TableWriter) := by
  induction counts generalizing rows0 with
  | nil => simp
  | cons p rest ih =>
    simp only [List.foldl_cons, List.map_cons]
    have hstep : TableWriter.AppendRow { style := style, header := header, rows := rows0 }
        [Cell.str (formatDate p.Date), Cell.uint p.Count] =
        { style := style, header := header, rows := rows0 ++ [volumeRow p] } := rfl
    rw [hstep, ih]
    simp

theorem volumeWriter_eq (counts : List CountOnDate) :
    volumeWriter counts =
      { style := { Name := "StyleLight", FormatHeader := TextFormat.FormatDefault },
        header := [[Cell.str "Date", Cell.str "Ticket Volume"]],
        rows := counts.map volumeRow } := by
  unfold volumeWriter
  simp only [NewWriter, TableWriter.SetStyle, TableWriter.SetFormatHeader,
    TableWriter.AppendHeader, StyleLight, List.nil_append]
  rw [volumeWriter_foldl]
  simp

theorem vars_all_ok (lib : Libs) (an : AnalyticsClient) (ctx : Ctx) (c : CommandContext)
    {order : List Branch} (hperm : order.Perm launched)
    (hvol : (an.GetLastNTicketsPerDayGuild ctx c.GuildId 7).2 = none) :
    order.foldl (stepVars lib an ctx c) Vars.zero =
      { totalTickets := (an.GetTotalTicketCount ctx c.GuildId).1,
        openTickets := (an.GetTotalOpenTicketCount ctx c.GuildId).1,
        feedbackRating := (an.GetAverageFeedbackRatingGuild ctx c.GuildId).1,
        feedbackCount := (an.GetFeedbackCountGuild ctx c.GuildId).1,
        firstResponseTime := (an.GetFirstResponseTimeStats ctx c.GuildId).1,
        ticketDuration := (an.GetTicketDurationStats ctx c.GuildId).1,
        ticketVolumeTable :=
          lib.Render (volumeWriter (an.GetLastNTicketsPerDayGuild ctx c.GuildId 7).1) } := by
  rw [foldl_stepVars_perm lib an ctx c Vars.zero hperm]
  simp [launched, stepVars, branchBody, hvol, Vars.zero]

theorem utod_injective : ∀ a < 10, ∀ b < 10, utod a = utod b → a = b := by
  decide

theorem formatDate_fourDigit (d : CivilDate) (h : d.fourDigit) :
    formatDate d =
      String.mk
        [utod (d.year.toNat / 1000), utod (d.year.toNat / 100 % 10),
         utod (d.year.toNat / 10 % 10), utod (d.year.toNat % 10), '-',
         utod (d.month / 10), utod (d.month % 10), '-',
         utod (d.day / 10), utod (d.day % 10)] := by
  obtain ⟨h0, h1, _, h3, _, h5⟩ := h
  have hy : d.year.natAbs = d.year.toNat := by omega
  have hlt : d.year.toNat < 10000 := by omega
  have hneg : ¬ d.year < 0 := by omega
  have hm : d.month < 100 := by omega
  have hd : d.day < 100 := by omega
  have hmi : ¬ ((d.month : Int) < 0) := by omega
  have hdi : ¬ ((d.day : Int) < 0) := by omega
  simp [formatDate, appendInt, hy, hlt, hneg, hm, hd, hmi, hdi]

theorem formatDate_injective (d e : CivilDate) (hd : d.fourDigit) (he : e.fourDigit)
    (h : formatDate d = formatDate e) : d = e := by
  rw [formatDate_fourDigit d hd, formatDate_fourDigit e he] at h
  obtain ⟨d0, d1, _, d3, _, d5⟩ := hd
  obtain ⟨e0, e1, _, e3, _, e5⟩ := he
  have hl := congrArg String.data h
  simp only [List.cons.injEq, and_true, true_and] at hl
  obtain ⟨y1, y2, y3, y4, m1, m2, a1, a2⟩ := hl
  have y1 := utod_injective _ (by omega) _ (by omega) y1
  have y2 := utod_injective _ (by omega) _ (by omega) y2
  have y3 := utod_injective _ (by omega) _ (by omega) y3
  have y4 := utod_injective _ (by omega) _ (by omega) y4
  have m1 := utod_injective _ (by omega) _ (by omega) m1
  have m2 := utod_injective _ (by omega) _ (by omega) m2
  have a1 := utod_injective _ (by omega) _ (by omega) a1
  have a2 := utod_injective _ (by omega) _ (by omega) a2
  have hyear : d.year = e.year := by omega
  have hmonth : d.month = e.month := by omega
  have hday : d.day = e.day := by omega
  cases d
  cases e
  simp_all

theorem map_volumeRow_injective (xs ys : List CountOnDate)
    (hx : ∀ p ∈ xs, p.Date.fourDigit) (hy : ∀ p ∈ ys, p.Date.fourDigit)
    (h : xs.map volumeRow = ys.map volumeRow) : xs = ys := by
  induction xs generalizing ys with
  | nil =>
    cases ys with
    | nil => rfl
    | cons y rest => simp at h
  | cons x xs ih =>
    cases ys with
    | nil => simp at h
    | cons y rest =>
      simp only [List.map_cons, List.cons.injEq] at h
      obtain ⟨hrow, hrest⟩ := h
      have hxd := hx x (List.mem_cons_self _ _)
      have hyd := hy y (List.mem_cons_self _ _)
      simp only [volumeRow, List.cons.injEq, Cell.str.injEq, Cell.uint.injEq, and_true] at hrow
      have hdate := formatDate_injective x.Date y.Date hxd hyd hrow.1
      have hxy : x = y := by
        cases x
        cases y
        simp_all
      rw [hxy, ih rest (fun p hp => hx p (List.mem_cons_of_mem _ hp))
        (fun p hp => hy p (List.mem_cons_of_mem _ hp)) hrest]

theorem execCtx_live : execCtx.expired = false := by
  decide

theorem execute_calls_ctx (lib : Libs) (an : AnalyticsClient) (c : CommandContext)
    (order : List Branch) : ∀ call ∈ (Execute lib an c order).calls, call.ctx = execCtx := by
  intro call hcall
  unfold Execute at hcall
  rw [executeIn_calls] at hcall
  obtain ⟨b, _, rfl⟩ := List.mem_map.mp hcall
  cases b <;> rfl

theorem branchBody_congr (lib : Libs) (an other : AnalyticsClient) (ctx : Ctx)
    (c : CommandContext) (h : sameAnswers an other ctx c.GuildId) (b : Branch) (v : Vars) :
    branchBody lib other ctx c b v = branchBody lib an ctx c b v := by
  obtain ⟨h1, h2, h3, h4, h5, h6, h7⟩ := h
  cases b <;> simp only [branchBody, h1, h2, h3, h4, h5, h6, h7]

theorem executeIn_congr (lib : Libs) (an other : AnalyticsClient) (ctx : Ctx)
    (c : CommandContext) (h : sameAnswers an other ctx c.GuildId) (order : List Branch) :
    executeIn lib other c order ctx = executeIn lib an c order ctx := by
  have hgo : goBranch lib other ctx c = goBranch lib an ctx c := by
    funext s b
    simp only [goBranch, branchBody_congr lib an other ctx c h]
  simp only [executeIn, runBranches, hgo]

/-! ## The claims -/

/-- C1: when all seven provider queries succeed, then for every guild, every
client and every completion order of the seven goroutines, `Execute` sends
exactly one report and nothing else; each of its fields is the text of the
value the corresponding provider call returned (decimal text for the three
counts, the one-decimal text of the rating followed by " / 5 ⭐", the
nullable-time text of each of the six window values), and the Ticket Volume
field is the rendering, between code fences, of the table with the header row
and one row per point of the series the daily-volume query returned. -/
theorem C1_report_shows_provider_values (lib : Libs) (an : AnalyticsClient)
    (c : CommandContext) (order : List Branch) (hperm : order.Perm launched)
    (hok : ∀ b, providerErr an execCtx c.GuildId b = none) :
    (Execute lib an c order).effects =
      [Effect.ReplyWith (MessageResponse.ephemeralEmbed
        { Title := "Statistics",
          Color := c.GetColour Colour.Green,
          Fields :=
            [EmbedField.field "Total Tickets"
               (FormatUint (an.GetTotalTicketCount execCtx c.GuildId).1 10) true,
             EmbedField.field "Open Tickets"
               (FormatUint (an.GetTotalOpenTicketCount execCtx c.GuildId).1 10) true,
             EmbedField.blank true,
             EmbedField.field "Feedback Rating"
               (lib.Sprintf1f (an.GetAverageFeedbackRatingGuild execCtx c.GuildId).1 ++ " / 5 ⭐")
               true,
             EmbedField.field "Feedback Count"
               (FormatUint (an.GetFeedbackCountGuild execCtx c.GuildId).1 10) true,
             EmbedField.blank true,
             EmbedField.field "Average First Response Time (Total)"
               (lib.FormatNullableTime (an.GetFirstResponseTimeStats execCtx c.GuildId).1.AllTime)
               true,
             EmbedField.field "Average First Response Time (Monthly)"
               (lib.FormatNullableTime (an.GetFirstResponseTimeStats execCtx c.GuildId).1.Monthly)
               true,
             EmbedField.field "Average First Response Time (Weekly)"
               (lib.FormatNullableTime (an.GetFirstResponseTimeStats execCtx c.GuildId).1.Weekly)
               true,
             EmbedField.field "Average Ticket Duration (Total)"
               (lib.FormatNullableTime (an.GetTicketDurationStats execCtx c.GuildId).1.AllTime)
               true,
             EmbedField.field "Average Ticket Duration (Monthly)"
               (lib.FormatNullableTime (an.GetTicketDurationStats execCtx c.GuildId).1.Monthly)
               true,
             EmbedField.field "Average Ticket Duration (Weekly)"
               (lib.FormatNullableTime (an.GetTicketDurationStats execCtx c.GuildId).1.Weekly)
               true,
             EmbedField.field "Ticket Volume"
               ("```\n" ++
                 lib.Render
                   { style := { Name := "StyleLight", FormatHeader := TextFormat.FormatDefault },
                     header := [[Cell.str "Date", Cell.str "Ticket Volume"]],
                     rows := (an.GetLastNTicketsPerDayGuild execCtx c.GuildId 7).1.map
                       (fun p => [Cell.str (formatDate p.Date), Cell.uint p.Count]) } ++
                 "\n```")
               false] })] := by
  have hall : ∀ b ∈ order, providerErr an execCtx c.GuildId b = none := fun b _ => hok b
  have hvol : (an.GetLastNTicketsPerDayGuild execCtx c.GuildId 7).2 = none :=
    hok Branch.ticketVolumeTable
  unfold Execute
  rw [executeIn_effects, firstError_eq_none hall, vars_all_ok lib an execCtx c hperm hvol,
    volumeWriter_eq]
  rfl

/-- The concrete scenario of C1: total 42, open 5, rating 4.7, count 12, first
response 2h / absent / absent, duration 30m / 10m / 5m, completing in an
order other than the program order. -/
theorem C1_report_shows_provider_values_witness :
    demoOrder.Perm launched ∧
    (∀ b, providerErr okAnalytics execCtx demoContext.GuildId b = none) ∧
    (Execute demoLibs okAnalytics demoContext demoOrder).effects =
      [Effect.ReplyWith (MessageResponse.ephemeralEmbed
        { Title := "Statistics",
          Color := 0x2ECC71,
          Fields :=
            [EmbedField.field "Total Tickets" "42" true,
             EmbedField.field "Open Tickets" "5" true,
             EmbedField.blank true,
             EmbedField.field "Feedback Rating" "4.7 / 5 ⭐" true,
             EmbedField.field "Feedback Count" "12" true,
             EmbedField.blank true,
             EmbedField.field "Average First Response Time (Total)"
               (demoLibs.FormatNullableTime (some (2 * Hour))) true,
             EmbedField.field "Average First Response Time (Monthly)"
               (demoLibs.FormatNullableTime none) true,
             EmbedField.field "Average First Response Time (Weekly)"
               (demoLibs.FormatNullableTime none) true,
             EmbedField.field "Average Ticket Duration (Total)"
               (demoLibs.FormatNullableTime (some (30 * Minute))) true,
             EmbedField.field "Average Ticket Duration (Monthly)"
               (demoLibs.FormatNullableTime (some (10 * Minute))) true,
             EmbedField.field "Average Ticket Duration (Weekly)"
               (demoLibs.FormatNullableTime (some (5 * Minute))) true,
             EmbedField.field "Ticket Volume"
               "```\nDate Ticket Volume\n2024-01-01 3\n2024-01-02 0\n2024-01-03 5\n```"
               false] })] :=
  ⟨by decide, by intro b; cases b <;> rfl,
    (C1_report_shows_provider_values demoLibs okAnalytics demoContext demoOrder (by decide)
      (by intro b; cases b <;> rfl)).trans (by decide)⟩

/-- C2: for every outcome of the seven branches and every completion order,
`Execute` does exactly one thing.  It sends a report if and only if all seven
provider calls returned no error, and that report is the only effect; if some
call failed, the only effect is `HandleError` with the error of a failed
branch; and whenever a report is among the effects, no branch failed. -/
theorem C2_report_or_error_never_both (lib : Libs) (an : AnalyticsClient)
    (c : CommandContext) (order : List Branch) (hperm : order.Perm launched) :
    ((∃ r, (Execute lib an c order).effects = [Effect.ReplyWith r]) ↔
      ∀ b, providerErr an execCtx c.GuildId b = none) ∧
    ((∃ b, providerErr an execCtx c.GuildId b ≠ none) →
      ∃ b e, providerErr an execCtx c.GuildId b = some e ∧
        (Execute lib an c order).effects = [Effect.HandleError e]) ∧
    (∀ r, Effect.ReplyWith r ∈ (Execute lib an c order).effects →
      ∀ b, providerErr an execCtx c.GuildId b = none) := by
  have key : (∀ b, providerErr an execCtx c.GuildId b = none) ∨
      ∃ b e, providerErr an execCtx c.GuildId b = some e ∧
        (Execute lib an c order).effects = [Effect.HandleError e] := by
    cases h : firstError (providerErr an execCtx c.GuildId) order with
    | none =>
      left
      intro b
      cases hb : providerErr an execCtx c.GuildId b with
      | none => rfl
      | some e =>
        obtain ⟨e0, h0⟩ := firstError_isSome (mem_of_perm_launched hperm b) hb
        rw [h] at h0
        cases h0
    | some e =>
      right
      obtain ⟨b, _, hb⟩ := firstError_mem h
      refine ⟨b, e, hb, ?_⟩
      unfold Execute
      rw [executeIn_effects, h]
  have ok : (∀ b, providerErr an execCtx c.GuildId b = none) →
      ∃ r, (Execute lib an c order).effects = [Effect.ReplyWith r] := by
    intro hok
    have hall : ∀ b ∈ order, providerErr an execCtx c.GuildId b = none := fun b _ => hok b
    refine ⟨NewEphemeralEmbedMessageResponse
      (msgEmbed lib c (order.foldl (stepVars lib an execCtx c) Vars.zero)), ?_⟩
    unfold Execute
    rw [executeIn_effects, firstError_eq_none hall]
  refine ⟨⟨?_, ok⟩, ?_, ?_⟩
  · rintro ⟨r, hr⟩
    rcases key with hok | ⟨b, e, _, he⟩
    · exact hok
    · rw [he] at hr
      simp at hr
  · rintro ⟨b, hb⟩
    rcases key with hok | h
    · exact absurd (hok b) hb
    · exact h
  · intro r hr
    rcases key with hok | ⟨b, e, _, he⟩
    · exact hok
    · rw [he] at hr
      simp at hr

/-- A run of C2 in which the daily-volume query fails: the error is handled
and no report is sent. -/
theorem C2_report_or_error_never_both_witness :
    demoOrder.Perm launched ∧
    (Execute demoLibs volumeFailsAnalytics demoContext demoOrder).effects =
      [Effect.HandleError (GoError.other "db down")] ∧
    ((∃ r, (Execute demoLibs volumeFailsAnalytics demoContext demoOrder).effects =
        [Effect.ReplyWith r]) ↔
      ∀ b, providerErr volumeFailsAnalytics execCtx demoContext.GuildId b = none) :=
  ⟨by decide, by decide,
    (C2_report_or_error_never_both demoLibs volumeFailsAnalytics demoContext demoOrder
      (by decide)).1⟩

/-- C3: when exactly one of the seven branches fails, with error `e`, and the
other six succeed, then whichever branch it is and whatever the completion
order, the only effect of `Execute` is `HandleError e`, with `e` itself; no
report is sent. -/
theorem C3_single_failure_propagated (lib : Libs) (an : AnalyticsClient)
    (c : CommandContext) (order : List Branch) (b : Branch) (e : GoError)
    (hperm : order.Perm launched)
    (hfail : providerErr an execCtx c.GuildId b = some e)
    (hothers : ∀ a, a ≠ b → providerErr an execCtx c.GuildId a = none) :
    (Execute lib an c order).effects = [Effect.HandleError e] := by
  unfold Execute
  rw [executeIn_effects,
    firstError_unique (mem_of_perm_launched hperm b) hfail hothers]

/-- A run of C3 in which only the total-ticket query fails. -/
theorem C3_single_failure_propagated_witness :
    demoOrder.Perm launched ∧
    providerErr totalFailsAnalytics execCtx demoContext.GuildId Branch.totalTickets =
      some (GoError.other "db down") ∧
    (∀ a, a ≠ Branch.totalTickets →
      providerErr totalFailsAnalytics execCtx demoContext.GuildId a = none) ∧
    (Execute demoLibs totalFailsAnalytics demoContext demoOrder).effects =
      [Effect.HandleError (GoError.other "db down")] :=
  ⟨by decide, rfl, by intro a ha; cases a <;> first | rfl | exact absurd rfl ha,
    C3_single_failure_propagated demoLibs totalFailsAnalytics demoContext demoOrder
      Branch.totalTickets (GoError.other "db down") (by decide) rfl
      (by intro a ha; cases a <;> first | rfl | exact absurd rfl ha)⟩

/-- C5, on the code: once a branch `b` has failed first (the branches `pre`
that completed before it succeeded), the group has cancelled exactly the
context derived by `errgroup.WithContext`, which `Execute` dropped.  The
context any sibling `sibling` passes to its provider call is the thirty-second
context of line 44: it is not the context the group cancelled, and it is not
done after that cancellation. -/
theorem C5_sibling_context_not_cancelled (lib : Libs) (an : AnalyticsClient)
    (c : CommandContext) (pre : List Branch) (b sibling : Branch) (e : GoError) (v : Vars)
    (hpre : ∀ a ∈ pre, providerErr an execCtx c.GuildId a = none)
    (hfail : providerErr an execCtx c.GuildId b = some e) :
    (runBranches lib an execCtx c (pre ++ [b])).group.err = some e ∧
    (runBranches lib an execCtx c (pre ++ [b])).group.cancelledScopes =
      [Ctx.withCancel execCtx] ∧
    ∀ call ∈ (branchBody lib an execCtx c sibling v).calls,
      call.ctx = execCtx ∧
      call.ctx ∉ (runBranches lib an execCtx c (pre ++ [b])).group.cancelledScopes ∧
      Ctx.isDone (runBranches lib an execCtx c (pre ++ [b])).group.cancelledScopes call.ctx =
        false := by
  have hfirst : firstError (providerErr an execCtx c.GuildId) (pre ++ [b]) = some e := by
    unfold firstError
    rw [List.filterMap_append]
    have hnil : pre.filterMap (providerErr an execCtx c.GuildId) = [] := by
      induction pre with
      | nil => rfl
      | cons a rest ih =>
        rw [List.filterMap_cons, hpre a (List.mem_cons_self _ _)]
        exact ih (fun x hx => hpre x (List.mem_cons_of_mem _ hx))
    simp [hnil, hfail]
  have hgroup : (runBranches lib an execCtx c (pre ++ [b])).group =
      { scope := Ctx.withCancel execCtx, err := some e, cancelled := true } := by
    rw [runBranches_eq, hfirst]
  rw [hgroup]
  have hscopes : Group.cancelledScopes
      { scope := Ctx.withCancel execCtx, err := some e, cancelled := true } =
      [Ctx.withCancel execCtx] := rfl
  rw [hscopes]
  refine ⟨rfl, rfl, ?_⟩
  intro call hcall
  rw [branchBody_calls] at hcall
  have hc : call = providerCall execCtx c.GuildId sibling := by simpa using hcall
  subst hc
  have hctx : (providerCall execCtx c.GuildId sibling).ctx = execCtx := by
    cases sibling <;> rfl
  rw [hctx]
  exact ⟨rfl, by decide, by decide⟩

/-- The failing input of C5: the total-ticket query fails after two other
branches have completed; the open-ticket branch still gets a live context. -/
theorem C5_sibling_context_not_cancelled_witness :
    (∀ a ∈ [Branch.ticketVolumeTable, Branch.feedbackCount],
      providerErr totalFailsAnalytics execCtx demoContext.GuildId a = none) ∧
    providerErr totalFailsAnalytics execCtx demoContext.GuildId Branch.totalTickets =
      some (GoError.other "db down") ∧
    Group.cancelledScopes (runBranches demoLibs totalFailsAnalytics execCtx demoContext
      ([Branch.ticketVolumeTable, Branch.feedbackCount] ++ [Branch.totalTickets])).group =
        [Ctx.withCancel execCtx] ∧
    ∀ call ∈ (branchBody demoLibs totalFailsAnalytics execCtx demoContext Branch.openTickets
        Vars.zero).calls,
      call.ctx = execCtx ∧
      call.ctx ∉ Group.cancelledScopes (runBranches demoLibs totalFailsAnalytics execCtx
        demoContext
        ([Branch.ticketVolumeTable, Branch.feedbackCount] ++ [Branch.totalTickets])).group ∧
      Ctx.isDone (Group.cancelledScopes (runBranches demoLibs totalFailsAnalytics execCtx
        demoContext
        ([Branch.ticketVolumeTable, Branch.feedbackCount] ++ [Branch.totalTickets])).group)
        call.ctx = false :=
  ⟨by decide, rfl,
    (C5_sibling_context_not_cancelled demoLibs totalFailsAnalytics demoContext
      [Branch.ticketVolumeTable, Branch.feedbackCount] Branch.totalTickets Branch.openTickets
      (GoError.other "db down") Vars.zero (by decide) rfl).2⟩

/-- C6: for every series of daily points, the writer handed to `Render`
holds the single header row ("Date", "Ticket Volume") and exactly one data
row per point, the i-th row being the i-th point: its date in the layout
"2006-01-02", then its count.  For a date whose year has four digits that
text is four year digits, a dash, two month digits, a dash and two day
digits.  The rows follow the input order and nothing is merged or dropped:
two series of such dates that give the same writer are the same series. -/
theorem C6_volume_rows_in_input_order (counts : List CountOnDate) :
    (volumeWriter counts).header = [[Cell.str "Date", Cell.str "Ticket Volume"]] ∧
    (volumeWriter counts).rows.length = counts.length ∧
    (∀ i : Nat, (volumeWriter counts).rows[i]? =
      (counts[i]?).map
        (fun (p : CountOnDate) => [Cell.str (formatDate p.Date), Cell.uint p.Count])) ∧
    (∀ p ∈ counts, p.Date.fourDigit → formatDate p.Date =
      String.mk
        [utod (p.Date.year.toNat / 1000), utod (p.Date.year.toNat / 100 % 10),
         utod (p.Date.year.toNat / 10 % 10), utod (p.Date.year.toNat % 10), '-',
         utod (p.Date.month / 10), utod (p.Date.month % 10), '-',
         utod (p.Date.day / 10), utod (p.Date.day % 10)]) ∧
    (∀ other : List CountOnDate, (∀ p ∈ counts, p.Date.fourDigit) →
      (∀ p ∈ other, p.Date.fourDigit) →
      volumeWriter other = volumeWriter counts → other = counts) := by
  rw [volumeWriter_eq]
  refine ⟨rfl, by simp, ?_, fun p _ hp => formatDate_fourDigit p.Date hp, ?_⟩
  · intro i
    simp only [List.getElem?_map]
    rfl
  · intro other hdates hother h
    rw [volumeWriter_eq] at h
    exact map_volumeRow_injective other counts hother hdates (congrArg TableWriter.rows h)

/-- The concrete scenario of C6: three rows in the order given, and the
reversed series gives another writer. -/
theorem C6_volume_rows_in_input_order_witness :
    (∀ p ∈ series3, p.Date.fourDigit) ∧
    volumeWriter series3 =
      { style := { Name := "StyleLight", FormatHeader := TextFormat.FormatDefault },
        header := [[Cell.str "Date", Cell.str "Ticket Volume"]],
        rows := [[Cell.str "2024-01-01", Cell.uint 3], [Cell.str "2024-01-02", Cell.uint 0],
                 [Cell.str "2024-01-03", Cell.uint 5]] } ∧
    (volumeWriter series3).rows.length = 3 ∧
    volumeWriter series3.reverse ≠ volumeWriter series3 :=
  ⟨by decide, by decide, (C6_volume_rows_in_input_order series3).2.1,
    fun h => absurd
      ((C6_volume_rows_in_input_order series3).2.2.2.2 series3.reverse (by decide)
        (by decide) h) (by decide)⟩

/-- C7: when the daily-volume query succeeds with an empty series, the
daily-volume branch returns no error and stores the rendering of a writer
that holds the header row ("Date", "Ticket Volume") and no data row; and,
the other six queries succeeding too, `Execute` sends the report, whose
Ticket Volume field is that rendering between code fences. -/
theorem C7_empty_series_header_only (lib : Libs) (an : AnalyticsClient) (c : CommandContext)
    (order : List Branch) (v : Vars) (hperm : order.Perm launched)
    (hok : ∀ b, providerErr an execCtx c.GuildId b = none)
    (hempty : (an.GetLastNTicketsPerDayGuild execCtx c.GuildId 7).1 = []) :
    (volumeWriter (an.GetLastNTicketsPerDayGuild execCtx c.GuildId 7).1).header =
      [[Cell.str "Date", Cell.str "Ticket Volume"]] ∧
    (volumeWriter (an.GetLastNTicketsPerDayGuild execCtx c.GuildId 7).1).rows = [] ∧
    (branchBody lib an execCtx c Branch.ticketVolumeTable v).err = none ∧
    (branchBody lib an execCtx c Branch.ticketVolumeTable v).vars.ticketVolumeTable =
      lib.Render
        { style := { Name := "StyleLight", FormatHeader := TextFormat.FormatDefault },
          header := [[Cell.str "Date", Cell.str "Ticket Volume"]],
          rows := [] } ∧
    ∃ e, (Execute lib an c order).effects = [Effect.ReplyWith (MessageResponse.ephemeralEmbed e)] ∧
      EmbedField.field "Ticket Volume"
        ("```\n" ++
          lib.Render
            { style := { Name := "StyleLight", FormatHeader := TextFormat.FormatDefault },
              header := [[Cell.str "Date", Cell.str "Ticket Volume"]],
              rows := [] } ++
          "\n```") false ∈ e.Fields := by
  have hall : ∀ b ∈ order, providerErr an execCtx c.GuildId b = none := fun b _ => hok b
  have hvol : (an.GetLastNTicketsPerDayGuild execCtx c.GuildId 7).2 = none :=
    hok Branch.ticketVolumeTable
  have hw : volumeWriter (an.GetLastNTicketsPerDayGuild execCtx c.GuildId 7).1 =
      { style := { Name := "StyleLight", FormatHeader := TextFormat.FormatDefault },
        header := [[Cell.str "Date", Cell.str "Ticket Volume"]],
        rows := [] } := by
    rw [hempty, volumeWriter_eq]
    rfl
  refine ⟨by rw [hw], by rw [hw], ?_, ?_, ?_⟩
  · rw [branchBody_err]
    exact hvol
  · simp only [branchBody, hvol, hw]
  · refine ⟨msgEmbed lib c (order.foldl (stepVars lib an execCtx c) Vars.zero), ?_, ?_⟩
    · unfold Execute
      rw [executeIn_effects, firstError_eq_none hall]
      rfl
    · rw [vars_all_ok lib an execCtx c hperm hvol, hw]
      simp [msgEmbed, Embed.AddField]

/-- A run of C7 with an empty series: the report is sent and its table has
the header line only. -/
theorem C7_empty_series_header_only_witness :
    demoOrder.Perm launched ∧
    (∀ b, providerErr emptySeriesAnalytics execCtx demoContext.GuildId b = none) ∧
    (emptySeriesAnalytics.GetLastNTicketsPerDayGuild execCtx demoContext.GuildId 7).1 = [] ∧
    (branchBody demoLibs emptySeriesAnalytics execCtx demoContext Branch.ticketVolumeTable
      Vars.zero).vars.ticketVolumeTable = "Date Ticket Volume" ∧
    ∃ e, (Execute demoLibs emptySeriesAnalytics demoContext demoOrder).effects =
        [Effect.ReplyWith (MessageResponse.ephemeralEmbed e)] ∧
      EmbedField.field "Ticket Volume" "```\nDate Ticket Volume\n```" false ∈ e.Fields :=
  ⟨by decide, by intro b; cases b <;> rfl, rfl, by decide,
    (C7_empty_series_header_only demoLibs emptySeriesAnalytics demoContext demoOrder Vars.zero
      (by decide) (by intro b; cases b <;> rfl) rfl).2.2.2.2⟩

/-- C9: a branch writes no variable but its own, and the variables after all
seven branches do not depend on the completion order.  Running branch `b`
from any variables `v` leaves the variable of every other branch `other` as
it was, and for every completion order the variables `Execute` ends with are
those of the program order. -/
theorem C9_branches_write_own_slot (lib : Libs) (an : AnalyticsClient) (c : CommandContext)
    (b other : Branch) (v : Vars) (order : List Branch) (hne : other ≠ b)
    (hperm : order.Perm launched) :
    (branchBody lib an execCtx c b v).vars.slot other = v.slot other ∧
    (Execute lib an c order).vars = (Execute lib an c launched).vars := by
  constructor
  · cases h : (an.GetLastNTicketsPerDayGuild execCtx c.GuildId 7).2 <;>
      cases b <;> cases other <;>
        first
        | exact absurd rfl hne
        | simp [branchBody, Vars.slot, h]
  · unfold Execute
    rw [executeIn_vars, executeIn_vars]
    exact foldl_stepVars_perm lib an execCtx c Vars.zero hperm

/-- A run of C9: the total-ticket branch leaves the table variable alone, and
a shuffled completion order ends with the variables of the program order. -/
theorem C9_branches_write_own_slot_witness :
    Branch.ticketVolumeTable ≠ Branch.totalTickets ∧
    demoOrder.Perm launched ∧
    (branchBody demoLibs okAnalytics execCtx demoContext Branch.totalTickets Vars.zero).vars.slot
      Branch.ticketVolumeTable = Slot.text "" ∧
    (Execute demoLibs okAnalytics demoContext demoOrder).vars =
      (Execute demoLibs okAnalytics demoContext launched).vars :=
  ⟨by decide, by decide,
    (C9_branches_write_own_slot demoLibs okAnalytics demoContext Branch.totalTickets
      Branch.ticketVolumeTable Vars.zero demoOrder (by decide) (by decide)).1,
    (C9_branches_write_own_slot demoLibs okAnalytics demoContext Branch.totalTickets
      Branch.ticketVolumeTable Vars.zero demoOrder (by decide) (by decide)).2⟩

/-- C10: `Execute` launches exactly seven branches, all different, one per
metric.  Run from any variables, the seven make, in program order, exactly
one provider call each: the total-ticket, open-ticket, feedback-rating,
feedback-count, first-response, ticket-duration and daily-volume query, each
with the context of `Execute` and the guild id of the caller, the last one
asking for 7 days.  The call is really made with those arguments: the error
each branch returns is the one that method returns for them, the value it
stores in its variable is the one that method returns for them (for the
daily series, the rendering of the returned series, stored when the error is
nil), and the whole result of a branch is the same under any client that
answers these seven queries alike, whatever it answers to other queries.
For every completion order the provider calls of a run of `Execute` are
these seven, each once, and the outcome of the run depends on the client
through these seven answers only. -/
theorem C10_seven_branches_one_call_each (lib : Libs) (an : AnalyticsClient)
    (c : CommandContext) (order : List Branch) (v : Vars) (hperm : order.Perm launched) :
    launched.length = 7 ∧ launched.Nodup ∧
    launched.map (fun b => (branchBody lib an execCtx c b v).calls) =
      [[Call.GetTotalTicketCount execCtx c.GuildId],
       [Call.GetTotalOpenTicketCount execCtx c.GuildId],
       [Call.GetAverageFeedbackRatingGuild execCtx c.GuildId],
       [Call.GetFeedbackCountGuild execCtx c.GuildId],
       [Call.GetFirstResponseTimeStats execCtx c.GuildId],
       [Call.GetTicketDurationStats execCtx c.GuildId],
       [Call.GetLastNTicketsPerDayGuild execCtx c.GuildId 7]] ∧
    launched.map (fun b => (branchBody lib an execCtx c b v).err) =
      [(an.GetTotalTicketCount execCtx c.GuildId).2,
       (an.GetTotalOpenTicketCount execCtx c.GuildId).2,
       (an.GetAverageFeedbackRatingGuild execCtx c.GuildId).2,
       (an.GetFeedbackCountGuild execCtx c.GuildId).2,
       (an.GetFirstResponseTimeStats execCtx c.GuildId).2,
       (an.GetTicketDurationStats execCtx c.GuildId).2,
       (an.GetLastNTicketsPerDayGuild execCtx c.GuildId 7).2] ∧
    launched.map (fun b => (branchBody lib an execCtx c b v).vars.slot b) =
      [Slot.u64 (an.GetTotalTicketCount execCtx c.GuildId).1,
       Slot.u64 (an.GetTotalOpenTicketCount execCtx c.GuildId).1,
       Slot.f64 (an.GetAverageFeedbackRatingGuild execCtx c.GuildId).1,
       Slot.u64 (an.GetFeedbackCountGuild execCtx c.GuildId).1,
       Slot.window (an.GetFirstResponseTimeStats execCtx c.GuildId).1,
       Slot.window (an.GetTicketDurationStats execCtx c.GuildId).1,
       Slot.text
         (if (an.GetLastNTicketsPerDayGuild execCtx c.GuildId 7).2 = none then
            lib.Render (volumeWriter (an.GetLastNTicketsPerDayGuild execCtx c.GuildId 7).1)
          else v.ticketVolumeTable)] ∧
    (∀ other : AnalyticsClient, sameAnswers an other execCtx c.GuildId →
      ∀ b, branchBody lib other execCtx c b v = branchBody lib an execCtx c b v) ∧
    (Execute lib an c order).calls.Perm
      [Call.GetTotalTicketCount execCtx c.GuildId,
       Call.GetTotalOpenTicketCount execCtx c.GuildId,
       Call.GetAverageFeedbackRatingGuild execCtx c.GuildId,
       Call.GetFeedbackCountGuild execCtx c.GuildId,
       Call.GetFirstResponseTimeStats execCtx c.GuildId,
       Call.GetTicketDurationStats execCtx c.GuildId,
       Call.GetLastNTicketsPerDayGuild execCtx c.GuildId 7] ∧
    (∀ other : AnalyticsClient, sameAnswers an other execCtx c.GuildId →
      Execute lib other c order = Execute lib an c order) := by
  refine ⟨rfl, by decide, ?_, ?_, ?_, ?_, ?_, ?_⟩
  · simp only [launched, List.map_cons, List.map_nil, branchBody_calls]
    rfl
  · simp only [launched, List.map_cons, List.map_nil, branchBody_err]
    rfl
  · cases h : (an.GetLastNTicketsPerDayGuild execCtx c.GuildId 7).2 <;>
      simp [launched, branchBody, Vars.slot, h]
  · intro other h b
    exact branchBody_congr lib an other execCtx c h b v
  · unfold Execute
    rw [executeIn_calls]
    exact hperm.map _
  · intro other h
    exact executeIn_congr lib an other execCtx c h order

/-- A run of C10 for guild 1234, in a shuffled completion order, with a client
that fails every query for any other guild and any series length but 7: no
branch gets an error, the log holds the seven calls for guild 1234, and the
outcome is that of `okAnalytics`, which answers these seven queries alike. -/
theorem C10_seven_branches_one_call_each_witness :
    demoOrder.Perm launched ∧
    launched.map (fun b =>
      (branchBody demoLibs onlyGuild1234Analytics execCtx demoContext b Vars.zero).err) =
      [none, none, none, none, none, none, none] ∧
    (Execute demoLibs onlyGuild1234Analytics demoContext demoOrder).calls =
      [Call.GetLastNTicketsPerDayGuild execCtx 1234 7,
       Call.GetFeedbackCountGuild execCtx 1234,
       Call.GetTotalTicketCount execCtx 1234,
       Call.GetTicketDurationStats execCtx 1234,
       Call.GetTotalOpenTicketCount execCtx 1234,
       Call.GetFirstResponseTimeStats execCtx 1234,
       Call.GetAverageFeedbackRatingGuild execCtx 1234] ∧
    Execute demoLibs okAnalytics demoContext demoOrder =
      Execute demoLibs onlyGuild1234Analytics demoContext demoOrder :=
  ⟨by decide,
    (C10_seven_branches_one_call_each demoLibs onlyGuild1234Analytics demoContext demoOrder
      Vars.zero (by decide)).2.2.2.1.trans (by decide),
    by decide,
    (C10_seven_branches_one_call_each demoLibs onlyGuild1234Analytics demoContext demoOrder
      Vars.zero (by decide)).2.2.2.2.2.2.2 okAnalytics
      ⟨rfl, rfl, rfl, rfl, rfl, rfl, rfl⟩⟩

end Statistics
